import Mathlib

/-!
Shallow embedding of the ModelArkVideoAPI task-list client
(`static/js/app.js`).  The client keeps an in-memory view of backend
task state, encodes generation parameters into a provider flag string,
and performs five network operations (load tasks, create task, delete
task, check settings, save settings).  Network calls are modelled by
passing the outcome of each request explicitly; each operation returns
the state afterwards together with the HTTP requests it issued and the
toast notifications it showed, in order.
-/

namespace ModelArk

/-- A task record as served by the backend via `GET /api/tasks`. -/
structure Task where
  id : String
  status : String
  prompt : String
deriving Repr, DecidableEq

/-- The draft form `newTask` held in client memory (the fields of the
simple client variant).  JS `null` for the seed is modelled by `none`;
a seed entered in the form is the `some` of its string rendering. -/
structure NewTask where
  prompt : String
  ratio : String
  duration : Nat
  resolution : String
  seed : Option String
  camera_fixed : Bool
deriving Repr, DecidableEq

/-- The default draft values, from `data()` and from the reset block of
`createTask`. -/
def defaultNewTask : NewTask :=
  { prompt := "", ratio := "16:9", duration := 5, resolution := "720p",
    seed := none, camera_fixed := false }

/-- The component state of the client. -/
structure AppState where
  tasks : List Task
  newTask : NewTask
  showSettings : Bool
  apiKey : String
  apiKeyConfigured : Bool
  isCreating : Bool
deriving Repr, DecidableEq

/-- A toast notification, created by `showSuccess` or `showError`. -/
inductive Toast where
  | success (msg : String)
  | error (msg : String)
deriving Repr, DecidableEq

/-- Whether a toast is an error toast. -/
def Toast.isError : Toast → Bool
  | .error _ => true
  | .success _ => false

/-- An HTTP request issued by the client. -/
inductive Request where
  | getTasks
  | postTask (prompt : String)
  | delTask (id : String)
  | getSettings
  | postSettings (key : String)
deriving Repr, DecidableEq

/-- Outcome of an axios call: the resolved payload, or a rejection
carrying the message the catch block reads
(`error.response?.data?.error || error.message`). -/
inductive NetResult (α : Type) where
  | success (val : α)
  | failure (msg : String)
deriving Repr, DecidableEq

/-- Result of running one client operation: the component state
afterwards, the requests issued and the toasts shown, in order. -/
structure Outcome where
  state : AppState
  requests : List Request
  toasts : List Toast
deriving Repr, DecidableEq

/-- JS `String.prototype.trim()`: drops leading and trailing
whitespace.  Modelled on the character list so that it evaluates by
kernel reduction. -/
def jsTrim (s : String) : String :=
  ⟨((s.data.dropWhile Char.isWhitespace).reverse.dropWhile
      Char.isWhitespace).reverse⟩

/-- The token list pushed by `buildParameterString` into `params`.
JS truthiness of a string field (`ratio`, `resolution`) is being a
nonempty string; of the numeric `duration`, being nonzero; the seed is
pushed when it is neither `null` nor the empty string. -/
def buildParameterTokens (t : NewTask) : List String :=
  let params : List String := []
  let params := if t.ratio ≠ "" then params ++ ["--rt " ++ t.ratio] else params
  let params :=
    if t.duration ≠ 0 then params ++ ["--dur " ++ toString t.duration] else params
  let params := params ++ ["--fps 24"]
  let params :=
    if t.resolution ≠ "" then params ++ ["--rs " ++ t.resolution] else params
  let params :=
    match t.seed with
    | some s => if s ≠ "" then params ++ ["--seed " ++ s] else params
    | none => params
  params ++ ["--cf " ++ (if t.camera_fixed then "true" else "false")]

/-- `buildParameterString`: the pushed tokens joined by single spaces,
as in `params.join(' ')`. -/
def buildParameterString (t : NewTask) : String :=
  " ".intercalate (buildParameterTokens t)

/-- `loadTasks`: issues `GET /api/tasks`; on success the cache is
replaced wholesale by `response.data.tasks || []` (`none` models an
absent or otherwise falsy `tasks` field); on rejection the catch block
shows an error toast and leaves the state untouched. -/
def loadTasks (st : AppState) (resp : NetResult (Option (List Task))) : Outcome :=
  match resp with
  | .success ts => ⟨{ st with tasks := ts.getD [] }, [Request.getTasks], []⟩
  | .failure msg =>
      ⟨st, [Request.getTasks], [Toast.error ("載入任務失敗: " ++ msg)]⟩

/-- `createTask`: validates the trimmed prompt and the configured flag
before any request; then posts the trimmed prompt with the parameter
string appended, resets the draft, reloads the task list, and shows a
success toast; a rejected POST is caught and toasted, and the
`finally` block clears `isCreating` on every path. -/
def createTask (st : AppState) (postResp : NetResult Unit)
    (loadResp : NetResult (Option (List Task))) : Outcome :=
  if jsTrim st.newTask.prompt = "" then
    ⟨st, [], [Toast.error ("請輸入提示詞")]⟩
  else if st.apiKeyConfigured = false then
    ⟨{ st with showSettings := true }, [], [Toast.error ("請先配置 API Key")]⟩
  else
    let st1 := { st with isCreating := true }
    let fullPrompt :=
      jsTrim st1.newTask.prompt ++ " " ++ buildParameterString st1.newTask
    match postResp with
    | .success _ =>
        let st2 := { st1 with newTask := defaultNewTask }
        let o := loadTasks st2 loadResp
        ⟨{ o.state with isCreating := false },
          Request.postTask fullPrompt :: o.requests,
          o.toasts ++ [Toast.success ("任務創建成功！")]⟩
    | .failure msg =>
        ⟨{ st1 with isCreating := false },
          [Request.postTask fullPrompt],
          [Toast.error ("創建失敗: " ++ msg)]⟩

/-- `deleteTask`: returns immediately when the user dismisses the
confirmation dialog; otherwise issues the DELETE, reloads the task
list on success, and toasts the error on rejection. -/
def deleteTask (st : AppState) (taskId : String) (confirmed : Bool)
    (delResp : NetResult Unit) (loadResp : NetResult (Option (List Task))) : Outcome :=
  if confirmed = false then
    ⟨st, [], []⟩
  else
    match delResp with
    | .success _ =>
        let o := loadTasks st loadResp
        ⟨o.state, Request.delTask taskId :: o.requests,
          o.toasts ++ [Toast.success ("任務已刪除")]⟩
    | .failure msg =>
        ⟨st, [Request.delTask taskId], [Toast.error ("刪除失敗: " ++ msg)]⟩

/-- `checkSettings`: issues `GET /api/settings` and records
`response.data.api_key_configured || false`; when not configured the
settings panel is opened (the model applies the `setTimeout` effect
immediately).  A rejection is only logged to the console: the catch
block shows no toast. -/
def checkSettings (st : AppState) (resp : NetResult (Option Bool)) : Outcome :=
  match resp with
  | .success v =>
      let configured := v.getD false
      let st1 := { st with apiKeyConfigured := configured }
      if configured = false then
        ⟨{ st1 with showSettings := true }, [Request.getSettings], []⟩
      else
        ⟨st1, [Request.getSettings], []⟩
  | .failure _ => ⟨st, [Request.getSettings], []⟩

/-- `saveSettings`: validates the trimmed key before any request, then
posts the raw key; on success it closes the panel, clears the field,
marks the key configured and either reloads the page (`reloadConfirmed`)
or shows a success toast; a rejection is caught and toasted. -/
def saveSettings (st : AppState) (resp : NetResult Unit)
    (reloadConfirmed : Bool) : Outcome :=
  if jsTrim st.apiKey = "" then
    ⟨st, [], [Toast.error ("請輸入 API Key")]⟩
  else
    match resp with
    | .success _ =>
        let st1 :=
          { st with showSettings := false, apiKey := "", apiKeyConfigured := true }
        if reloadConfirmed then
          ⟨st1, [Request.postSettings st.apiKey], []⟩
        else
          ⟨st1, [Request.postSettings st.apiKey], [Toast.success ("設置已保存")]⟩
    | .failure msg =>
        ⟨st, [Request.postSettings st.apiKey], [Toast.error ("保存失敗: " ++ msg)]⟩

/-- A concrete state with a valid draft and a configured key, used to
instantiate universally quantified theorems. -/
def exSt : AppState :=
  { tasks := [{ id := "t1", status := "pending", prompt := "a cat" }],
    newTask := { prompt := "a cat", ratio := "16:9", duration := 5,
                 resolution := "720p", seed := none, camera_fixed := false },
    showSettings := false, apiKey := "sk-key", apiKeyConfigured := true,
    isCreating := false }

/-- A concrete state whose draft prompt carries trailing whitespace,
passing validation. -/
def exStPad : AppState :=
  { exSt with newTask := { exSt.newTask with prompt := "hi " } }

/-- A concrete state with an empty draft prompt, an empty settings key
and no configured API key. -/
def exStEmpty : AppState :=
  { exSt with
    newTask := { exSt.newTask with prompt := "  " }
    apiKey := " "
    apiKeyConfigured := false }

/-- The push-style token accumulation rewritten as one concatenation
of optional segments. -/
theorem buildParameterTokens_eq (t : NewTask) :
    buildParameterTokens t =
      (if t.ratio ≠ "" then ["--rt " ++ t.ratio] else []) ++
      ((if t.duration ≠ 0 then ["--dur " ++ toString t.duration] else []) ++
      (["--fps 24"] ++
      ((if t.resolution ≠ "" then ["--rs " ++ t.resolution] else []) ++
      ((match t.seed with
        | some s => if s ≠ "" then ["--seed " ++ s] else []
        | none => []) ++
      ["--cf " ++ (if t.camera_fixed then "true" else "false")])))) := by
  rcases t with ⟨p, r, d, rs, sd, cf⟩
  rcases sd with _ | s <;> simp only [buildParameterTokens] <;>
    split_ifs <;> simp

/-- The third character of a seed token is the letter s. -/
theorem seed_tok_third (s : String) : ("--seed " ++ s).data[2]? = some 's' := by
  rw [String.data_append, List.getElem?_append_left (by decide)]
  decide

/-- A seed token differs from any string whose third character is not
the letter s. -/
theorem seed_ne_of_third (s q : String) (hc : q.data[2]? ≠ some 's') :
    ("--seed " ++ s) ≠ q :=
  fun he => hc (he ▸ seed_tok_third s)

/-- A seed token is never a ratio token. -/
theorem seed_ne_rt (s r : String) : ("--seed " ++ s) ≠ ("--rt " ++ r) :=
  seed_ne_of_third s _
    (by rw [String.data_append, List.getElem?_append_left (by decide)]; decide)

/-- A seed token is never a duration token. -/
theorem seed_ne_dur (s r : String) : ("--seed " ++ s) ≠ ("--dur " ++ r) :=
  seed_ne_of_third s _
    (by rw [String.data_append, List.getElem?_append_left (by decide)]; decide)

/-- A seed token is never the fps token. -/
theorem seed_ne_fps (s : String) : ("--seed " ++ s) ≠ "--fps 24" :=
  seed_ne_of_third s _ (by decide)

/-- A seed token is never a resolution token. -/
theorem seed_ne_rs (s r : String) : ("--seed " ++ s) ≠ ("--rs " ++ r) :=
  seed_ne_of_third s _
    (by rw [String.data_append, List.getElem?_append_left (by decide)]; decide)

/-- A seed token is never the fixed-camera token. -/
theorem seed_ne_cf_true (s : String) : ("--seed " ++ s) ≠ "--cf true" :=
  seed_ne_of_third s _ (by decide)

/-- A seed token is never the free-camera token. -/
theorem seed_ne_cf_false (s : String) : ("--seed " ++ s) ≠ "--cf false" :=
  seed_ne_of_third s _ (by decide)

/-- When the seed is null or empty, no seed token occurs among the
parameter tokens. -/
theorem seed_not_mem (s : String) (t : NewTask)
    (hseed : t.seed = none ∨ t.seed = some "") :
    ("--seed " ++ s) ∉ buildParameterTokens t := by
  intro h
  rw [buildParameterTokens_eq] at h
  rcases hseed with hs | hs <;> rw [hs] at h <;>
    split_ifs at h <;>
    simp_all [seed_ne_rt, seed_ne_dur, seed_ne_fps, seed_ne_rs,
      seed_ne_cf_true, seed_ne_cf_false]

/-- C1: for every draft the parameter tokens always contain the token
fps 24, end in a cf token matching the camera_fixed boolean, contain a
seed token exactly when the seed is neither null nor the empty string,
appear as a subsequence of the fixed flag order rt, dur, fps, rs,
seed, cf, and `buildParameterString` joins them by single spaces. -/
theorem claim_C1_parameter_string_shape (t : NewTask) :
    "--fps 24" ∈ buildParameterTokens t ∧
    (buildParameterTokens t).getLast? =
      some ("--cf " ++ (if t.camera_fixed then "true" else "false")) ∧
    ((∃ s, ("--seed " ++ s) ∈ buildParameterTokens t) ↔
      ∃ s, t.seed = some s ∧ s ≠ "") ∧
    List.Sublist (buildParameterTokens t)
      ["--rt " ++ t.ratio, "--dur " ++ toString t.duration, "--fps 24",
       "--rs " ++ t.resolution, "--seed " ++ t.seed.getD "",
       "--cf " ++ (if t.camera_fixed then "true" else "false")] ∧
    buildParameterString t = " ".intercalate (buildParameterTokens t) := by
  refine ⟨?_, ?_, ⟨?_, ?_⟩, ?_, rfl⟩
  · rw [buildParameterTokens_eq]; simp
  · exact List.getLast?_concat _
  · rintro ⟨s, hs⟩
    rcases ht : t.seed with _ | s'
    · exact absurd hs (seed_not_mem s t (Or.inl ht))
    · by_cases h0 : s' = ""
      · subst h0
        exact absurd hs (seed_not_mem s t (Or.inr ht))
      · exact ⟨s', rfl, h0⟩
  · rintro ⟨s, hseed, hne⟩
    refine ⟨s, ?_⟩
    rw [buildParameterTokens_eq, hseed]
    simp [hne]
  · rw [buildParameterTokens_eq]
    have h1 : List.Sublist (if t.ratio ≠ "" then ["--rt " ++ t.ratio] else [])
        ["--rt " ++ t.ratio] := by split <;> simp
    have h2 : List.Sublist
        (if t.duration ≠ 0 then ["--dur " ++ toString t.duration] else [])
        ["--dur " ++ toString t.duration] := by split <;> simp
    have h3 : List.Sublist ["--fps 24"] ["--fps 24"] := List.Sublist.refl _
    have h4 : List.Sublist
        (if t.resolution ≠ "" then ["--rs " ++ t.resolution] else [])
        ["--rs " ++ t.resolution] := by split <;> simp
    have h5 : List.Sublist (match t.seed with
        | some s => if s ≠ "" then ["--seed " ++ s] else []
        | none => []) ["--seed " ++ t.seed.getD ""] := by
      rcases t.seed with _ | s
      · exact List.nil_sublist _
      · dsimp only
        split
        · exact List.Sublist.refl _
        · exact List.nil_sublist _
    have h6 : List.Sublist
        ["--cf " ++ (if t.camera_fixed then "true" else "false")]
        ["--cf " ++ (if t.camera_fixed then "true" else "false")] :=
      List.Sublist.refl _
    exact List.Sublist.append h1 (List.Sublist.append h2
      (List.Sublist.append h3 (List.Sublist.append h4
        (List.Sublist.append h5 h6))))

/-- C8: for the draft with ratio 9:16, duration 3, resolution 1080p,
null seed and camera_fixed true, `buildParameterString` returns exactly
the string `--rt 9:16 --dur 3 --fps 24 --rs 1080p --cf true`. -/
theorem claim_C8_example_draft :
    buildParameterString
      { prompt := "", ratio := "9:16", duration := 3, resolution := "1080p",
        seed := none, camera_fixed := true } =
      "--rt 9:16 --dur 3 --fps 24 --rs 1080p --cf true" := by
  decide

/-- C7: when the confirmation dialog is dismissed, `deleteTask` issues
no request at all and returns with the state — in particular the tasks
cache — unchanged. -/
theorem claim_C7_delete_unconfirmed (st : AppState) (taskId : String)
    (delResp : NetResult Unit) (loadResp : NetResult (Option (List Task))) :
    deleteTask st taskId false delResp loadResp = ⟨st, [], []⟩ :=
  rfl

/-- C2: when the GET behind `loadTasks` rejects, the tasks cache is
exactly what it was before the call and an error toast is surfaced. -/
theorem claim_C2_load_failure_keeps_cache (st : AppState) (msg : String) :
    (loadTasks st (.failure msg)).state.tasks = st.tasks ∧
    ∃ x ∈ (loadTasks st (.failure msg)).toasts, x.isError :=
  ⟨rfl, Toast.error ("載入任務失敗: " ++ msg), by simp [loadTasks], rfl⟩

/-- C10: after a successful `loadTasks` the cache equals the
response's tasks array when present, and the empty list when the
`tasks` field is absent or falsy. -/
theorem claim_C10_load_success_replaces (st : AppState) (ts : List Task) :
    (loadTasks st (.success none)).state.tasks = [] ∧
    (loadTasks st (.success (some ts))).state.tasks = ts :=
  ⟨rfl, rfl⟩

/-- C3: a blank draft prompt blocks `createTask`, a blank key blocks
`saveSettings`, and a missing API key blocks `createTask`; in each
case no request is issued and an error toast is surfaced. -/
theorem claim_C3_validation_blocks (st : AppState) (postR : NetResult Unit)
    (loadR : NetResult (Option (List Task))) (svR : NetResult Unit) (rc : Bool) :
    (jsTrim st.newTask.prompt = "" →
      (createTask st postR loadR).requests = [] ∧
      ∃ x ∈ (createTask st postR loadR).toasts, x.isError) ∧
    (jsTrim st.apiKey = "" →
      (saveSettings st svR rc).requests = [] ∧
      ∃ x ∈ (saveSettings st svR rc).toasts, x.isError) ∧
    (st.apiKeyConfigured = false →
      (createTask st postR loadR).requests = [] ∧
      ∃ x ∈ (createTask st postR loadR).toasts, x.isError) := by
  refine ⟨?_, ?_, ?_⟩
  · intro h
    simp [createTask, h, Toast.isError]
  · intro h
    simp [saveSettings, h, Toast.isError]
  · intro h
    by_cases hp : jsTrim st.newTask.prompt = ""
    · simp [createTask, hp, Toast.isError]
    · simp [createTask, hp, h, Toast.isError]

/-- C3 witness: the concrete state with a whitespace prompt, a blank
key and no configured API key blocks all three operations. -/
theorem claim_C3_validation_blocks_witness :
    ((createTask exStEmpty (.success ()) (.success none)).requests = [] ∧
      ∃ x ∈ (createTask exStEmpty (.success ()) (.success none)).toasts, x.isError) ∧
    ((saveSettings exStEmpty (.success ()) true).requests = [] ∧
      ∃ x ∈ (saveSettings exStEmpty (.success ()) true).toasts, x.isError) ∧
    ((createTask exStEmpty (.success ()) (.success none)).requests = [] ∧
      ∃ x ∈ (createTask exStEmpty (.success ()) (.success none)).toasts, x.isError) := by
  have h := claim_C3_validation_blocks exStEmpty (.success ()) (.success none)
    (.success ()) true
  exact ⟨h.1 (by decide), h.2.1 (by decide), h.2.2 (by decide)⟩

/-- C4: after a `createTask` whose POST succeeds, every draft field is
back at its default value. -/
theorem claim_C4_draft_reset (st : AppState)
    (loadR : NetResult (Option (List Task)))
    (hp : jsTrim st.newTask.prompt ≠ "") (hk : st.apiKeyConfigured = true) :
    (createTask st (.success ()) loadR).state.newTask.ratio = "16:9" ∧
    (createTask st (.success ()) loadR).state.newTask.duration = 5 ∧
    (createTask st (.success ()) loadR).state.newTask.resolution = "720p" ∧
    (createTask st (.success ()) loadR).state.newTask.seed = none ∧
    (createTask st (.success ()) loadR).state.newTask.camera_fixed = false ∧
    (createTask st (.success ()) loadR).state.newTask.prompt = "" := by
  have hd : (createTask st (.success ()) loadR).state.newTask = defaultNewTask := by
    simp only [createTask, hp, hk]
    cases loadR <;> simp [loadTasks]
  rw [hd]
  exact ⟨rfl, rfl, rfl, rfl, rfl, rfl⟩

/-- C4 witness at a concrete state with a valid draft. -/
theorem claim_C4_draft_reset_witness :
    (createTask exSt (.success ()) (.success (some []))).state.newTask.ratio = "16:9" ∧
    (createTask exSt (.success ()) (.success (some []))).state.newTask.duration = 5 ∧
    (createTask exSt (.success ()) (.success (some []))).state.newTask.resolution = "720p" ∧
    (createTask exSt (.success ()) (.success (some []))).state.newTask.seed = none ∧
    (createTask exSt (.success ()) (.success (some []))).state.newTask.camera_fixed = false ∧
    (createTask exSt (.success ()) (.success (some []))).state.newTask.prompt = "" :=
  claim_C4_draft_reset exSt (.success (some [])) (by decide) rfl

/-- C5 counterexample: for the draft whose prompt is the string hi
followed by a trailing space, the POST body prompt is the trimmed
prompt plus the parameter string, which differs from the raw prompt
followed by a single space and the parameter string. -/
theorem claim_C5_counterexample :
    (createTask exStPad (.success ()) (.success none)).requests =
      [Request.postTask ("hi --rt 16:9 --dur 5 --fps 24 --rs 720p --cf false"),
       Request.getTasks] ∧
    "hi --rt 16:9 --dur 5 --fps 24 --rs 720p --cf false" ≠
      exStPad.newTask.prompt ++ " " ++ buildParameterString exStPad.newTask := by
  decide

/-- C5 as amended: for every draft passing validation, the POST body
prompt is the trimmed user prompt, a single space, and the parameter
string. -/
theorem claim_C5_submitted_prompt (st : AppState)
    (loadR : NetResult (Option (List Task)))
    (hp : jsTrim st.newTask.prompt ≠ "") (hk : st.apiKeyConfigured = true) :
    (createTask st (.success ()) loadR).requests =
      [Request.postTask
        (jsTrim st.newTask.prompt ++ " " ++ buildParameterString st.newTask),
       Request.getTasks] := by
  simp only [createTask, hp, hk]
  cases loadR <;> simp [loadTasks]

/-- C5 witness at a concrete state with a valid draft. -/
theorem claim_C5_submitted_prompt_witness :
    (createTask exSt (.success ()) (.success none)).requests =
      [Request.postTask
        (jsTrim exSt.newTask.prompt ++ " " ++ buildParameterString exSt.newTask),
       Request.getTasks] :=
  claim_C5_submitted_prompt exSt (.success none) (by decide) rfl

/-- C6 counterexample: a rejected `checkSettings` request produces no
toast at all; the failure is only logged. -/
theorem claim_C6_counterexample :
    (checkSettings exSt (.failure "Network Error")).toasts = [] :=
  rfl

/-- C6 as amended: a rejected request in `loadTasks`, `createTask`,
`deleteTask` or `saveSettings` is caught and surfaces an error toast,
while `checkSettings` catches its failure without showing any toast. -/
theorem claim_C6_failures_toasted (st : AppState) (msg taskId : String)
    (loadR : NetResult (Option (List Task))) (rc : Bool)
    (hp : jsTrim st.newTask.prompt ≠ "") (hk : st.apiKeyConfigured = true)
    (hs : jsTrim st.apiKey ≠ "") :
    (∃ x ∈ (loadTasks st (.failure msg)).toasts, x.isError) ∧
    (∃ x ∈ (createTask st (.failure msg) loadR).toasts, x.isError) ∧
    (∃ x ∈ (deleteTask st taskId true (.failure msg) loadR).toasts, x.isError) ∧
    (∃ x ∈ (saveSettings st (.failure msg) rc).toasts, x.isError) ∧
    (checkSettings st (.failure msg)).toasts = [] := by
  refine ⟨?_, ?_, ?_, ?_, rfl⟩ <;>
    simp [loadTasks, createTask, deleteTask, saveSettings, hp, hk, hs,
      Toast.isError]

/-- C6 witness at a concrete state passing every validation. -/
theorem claim_C6_failures_toasted_witness :
    (∃ x ∈ (loadTasks exSt (.failure "boom")).toasts, x.isError) ∧
    (∃ x ∈ (createTask exSt (.failure "boom") (.success none)).toasts, x.isError) ∧
    (∃ x ∈ (deleteTask exSt "t1" true (.failure "boom") (.success none)).toasts,
      x.isError) ∧
    (∃ x ∈ (saveSettings exSt (.failure "boom") false).toasts, x.isError) ∧
    (checkSettings exSt (.failure "boom")).toasts = [] :=
  claim_C6_failures_toasted exSt "boom" "t1" (.success none) false
    (by decide) rfl (by decide)

/-- C9: when the POST behind `createTask` rejects, the draft is left
exactly as it was and `isCreating` is false after the call. -/
theorem claim_C9_failure_preserves_draft (st : AppState) (msg : String)
    (loadR : NetResult (Option (List Task)))
    (hp : jsTrim st.newTask.prompt ≠ "") (hk : st.apiKeyConfigured = true) :
    (createTask st (.failure msg) loadR).state.newTask = st.newTask ∧
    (createTask st (.failure msg) loadR).state.isCreating = false := by
  constructor <;> simp [createTask, hp, hk]

/-- C9 witness at a concrete state with a valid draft. -/
theorem claim_C9_failure_preserves_draft_witness :
    (createTask exSt (.failure "boom") (.success none)).state.newTask =
      exSt.newTask ∧
    (createTask exSt (.failure "boom") (.success none)).state.isCreating = false :=
  claim_C9_failure_preserves_draft exSt "boom" (.success none) (by decide) rfl

end ModelArk
